import Mathlib

/-!
Shallow embedding of the `wattsup` serverless handlers
(`authorizer_lambda/app.py`, `lambda_b/app.py`, `post_lambda/app.py`,
and the spec-described order generator `lambda_a`), together with
theorems settling the frozen claims about them.

Modelling conventions:
* Python values that flow through the handlers (JSON documents, records,
  response bodies) are modelled by the inductive `PyVal`.  A Python
  `float` is represented by its shortest round-trip decimal repr string
  (what Python's `str(f)` returns); a `decimal.Decimal` by its digit
  string.  This is exact for the decimal literals the handlers see and
  abstracts away from IEEE-754 bit patterns, which no claim depends on.
* Raising an exception is modelled by `Except.error msg`; an uncaught
  exception escaping a handler is an `Except.error` at the handler's
  result type, while a caught-and-mapped exception becomes the mapped
  value, exactly following the `try/except` structure of the source.
* External collaborators (Secrets Manager, the JWT decoder, DynamoDB,
  S3) are parameters of the handler functions: the handler's own logic
  is translated literally from the source, while the collaborator's
  outcome is supplied by the caller of the model.
* Side-channel logging (`logger.info` / `print`) has no observable
  effect and is dropped.
-/

/-- A Python/JSON value as it flows through the handlers.  `float`
carries the shortest decimal repr of the float (Python's `str(f)`);
`decimal` carries the digit string of a `decimal.Decimal`. -/
inductive PyVal where
  | null : PyVal
  | bool (b : Bool) : PyVal
  | int (n : Int) : PyVal
  | float (r : String) : PyVal
  | decimal (r : String) : PyVal
  | str (s : String) : PyVal
  | dict (fs : List (String × PyVal)) : PyVal
  | list (xs : List PyVal) : PyVal
deriving Repr

/- `convert_floats_to_decimal` from `post_lambda/app.py` (lines 57-65):
floats become `Decimal(str(obj))`, dicts and lists are rebuilt
recursively, everything else is returned unchanged. -/

mutual

def convert_floats_to_decimal : PyVal → PyVal
  | .float r => .decimal r
  | .dict fs => .dict (convertFields fs)
  | .list xs => .list (convertItems xs)
  | v => v

def convertFields : List (String × PyVal) → List (String × PyVal)
  | [] => []
  | (k, v) :: rest => (k, convert_floats_to_decimal v) :: convertFields rest

def convertItems : List PyVal → List PyVal
  | [] => []
  | v :: rest => convert_floats_to_decimal v :: convertItems rest

end

/-! Model of `authorizer_lambda/app.py`.

The JWT library and Secrets Manager are external collaborators: the
handler model takes the environment value of `JWT_SECRET_NAME`, the
outcome of `get_secret_value` (`fetchSecret`), and the behaviour of
`jwt.decode` (`decode : token → secret → DecodeResult`) as parameters.
The module-level `_cached_secret` memoisation only matters across
invocations of one warm context and is invisible within a single
invocation, so the single-invocation model omits it. -/

namespace Authorizer

/-- Claims decoded from a JWT, restricted to the keys the handler reads
(`sub`, `email`); a missing key is `none`. -/
structure Claims where
  sub : Option String
  email : Option String
deriving Repr, DecidableEq

/-- Outcome of `jwt.decode(token, secret, algorithms=[HS256])`: success
with claims, `jwt.ExpiredSignatureError`, or `jwt.InvalidTokenError`. -/
inductive DecodeResult where
  | ok (claims : Claims)
  | expiredSignature
  | invalidToken (msg : String)
deriving Repr, DecidableEq

/-- The `auth_context` dict built by the handler (keys `userId`,
`email`). -/
structure AuthContext where
  userId : String
  email : String
deriving Repr, DecidableEq

/-- The IAM policy document produced by `generate_policy`, flattened:
`version`, `action`, `effect`, `resource` are the fields of the single
statement of `policyDocument`. -/
structure Policy where
  principalId : String
  version : String
  action : String
  effect : String
  resource : String
  context : Option AuthContext
deriving Repr, DecidableEq

/-- `get_secret_key` (lines 15-28): `os.environ.get('JWT_SECRET_NAME')`
is falsy when unset or empty, raising `ValueError`; otherwise the
Secrets Manager call's outcome (`fetchSecret`) is returned. -/
def get_secret_key (jwtSecretName : Option String)
    (fetchSecret : Except String String) : Except String String :=
  match jwtSecretName with
  | none => .error "JWT_SECRET_NAME environment variable not set"
  | some name =>
    if name = "" then .error "JWT_SECRET_NAME environment variable not set"
    else fetchSecret

/-- `validate_token` (lines 31-39): resolve the secret, then decode.
Exceptions from either step propagate as `Except.error`. -/
def validate_token (token : String) (jwtSecretName : Option String)
    (fetchSecret : Except String String)
    (decode : String → String → DecodeResult) : Except String Claims :=
  match get_secret_key jwtSecretName fetchSecret with
  | .error e => .error e
  | .ok secretKey =>
    match decode token secretKey with
    | .ok claims => .ok claims
    | .expiredSignature => .error "ExpiredSignatureError"
    | .invalidToken m => .error m

/-- `generate_policy` (lines 42-61).  The `if context:` truthiness test
is modelled by `Option`: the handler only ever passes a two-key dict,
which is always truthy. -/
def generate_policy (principalId effect resource : String)
    (context : Option AuthContext) : Policy :=
  { principalId := principalId
    version := "2012-10-17"
    action := "execute-api:Invoke"
    effect := effect
    resource := resource
    context := context }

/-- The TOKEN-type event: `authorizationToken` and `methodArn` keys,
each possibly absent. -/
structure AuthEvent where
  authorizationToken : Option String
  methodArn : Option String
deriving Repr, DecidableEq

/-- The `Bearer ` strip (lines 83-86):
`auth_token.lower().startswith('bearer ')` then `auth_token[7:]`. -/
def stripBearer (authToken : String) : String :=
  if "bearer ".isPrefixOf authToken.toLower then authToken.drop 7
  else authToken

/-- `lambda_handler` (lines 64-110).  Every exception raised inside the
`try` block — the `ValueError` for a missing token, the `ValueError`
from `get_secret_key`, any Secrets Manager failure, and both JWT error
classes — is caught by one of the three `except` clauses, all of which
re-raise `Exception('Unauthorized')`. -/
def lambda_handler (event : AuthEvent) (jwtSecretName : Option String)
    (fetchSecret : Except String String)
    (decode : String → String → DecodeResult) : Except String Policy :=
  let authToken := event.authorizationToken.getD ""
  let methodArn := event.methodArn.getD "*"
  if authToken = "" then
    .error "Unauthorized"
  else
    match validate_token (stripBearer authToken) jwtSecretName fetchSecret decode with
    | .ok claims =>
      let principalId := claims.sub.getD (claims.email.getD "user")
      let authContext : AuthContext :=
        { userId := principalId, email := claims.email.getD "" }
      .ok (generate_policy principalId "Allow" methodArn (some authContext))
    | .error _ => .error "Unauthorized"

end Authorizer

/-- Python dict lookup `d[key]` on string keys: the value under `key`,
or `none` when the key is absent (a `KeyError` at the call site). -/
def lookupField : List (String × PyVal) → String → Option PyVal
  | [], _ => none
  | (k, v) :: rest, key => if k = key then some v else lookupField rest key

/-- Python dict update semantics for `{**d, key: v}`: an existing key
keeps its position and gets the new value; a new key is appended. -/
def setField : List (String × PyVal) → String → PyVal → List (String × PyVal)
  | [], key, v => [(key, v)]
  | (k, w) :: rest, key, v =>
    if k = key then (k, v) :: rest else (k, w) :: setField rest key v

/-- Python `v == s` for a string literal `s`: true exactly when `v` is
that same string (none of the other `PyVal` kinds compares equal to a
`str` under Python `==`). -/
def pyEqStr (v : PyVal) (s : String) : Bool :=
  match v with
  | .str t => t = s
  | _ => false

/-- Whether a value is a dict carrying the given key. -/
def pyHasKey (v : PyVal) (key : String) : Bool :=
  match v with
  | .dict fs => (lookupField fs key).isSome
  | _ => false

/-! Model of `lambda_b/app.py` (the order archiver). -/

namespace LambdaB

/-- One `s3_client.put_object` invocation as issued by `save_to_s3`.
The `Body` is `json.dumps(data, indent=2, default=str)`; the model
carries the document itself rather than its serialized text. -/
structure PutCall where
  bucket : String
  key : String
  body : PyVal
  contentType : String
  serverSideEncryption : String
deriving Repr

/-- `lambda_handler` (lines 48-57) together with `save_to_s3`
(lines 18-45).  `event['status']` raises `KeyError` when absent (and
`TypeError` when the event is not a mapping); a `"rejected"` status
raises `ValueError('Order status is rejected!')` before `save_to_s3` is
called; otherwise one `put_object` call is attempted at key
`orders/order_<nowIso>.json` and a storage failure (`s3Put`) is logged
and re-raised unmodified.  The first component of the result lists the
put calls attempted during the invocation. -/
def lambda_handler (event : PyVal) (logBucket : String) (nowIso : String)
    (s3Put : Except String Unit) : List PutCall × Except String PyVal :=
  match event with
  | .dict fs =>
    match lookupField fs "status" with
    | none => ([], .error "KeyError: 'status'")
    | some v =>
      if pyEqStr v "rejected" then
        ([], .error "Order status is rejected!")
      else
        let call : PutCall :=
          { bucket := logBucket
            key := "orders/order_" ++ nowIso ++ ".json"
            body := event
            contentType := "application/json"
            serverSideEncryption := "AES256" }
        match s3Put with
        | .ok _ =>
          ([call], .ok (.dict [("statusCode", .int 200),
                               ("message", .str "Order processed successfully"),
                               ("order", event)]))
        | .error e => ([call], .error e)
  | _ => ([], .error "TypeError: event is not a mapping")

end LambdaB

/-! Model of the order generator (`lambda_a`). -/

namespace LambdaA

/-- Modelled from the spec: the order generator's source
(`lambda_a/app.py`) is not under `src/` — only its tests are.  Per the
spec (§4.2), the handler ignores its input event, draws one boolean
from an unweighted two-outcome random source (`random.choice`, supplied
here as `draw`), and returns either the fixed two-order document or
`{results: false}` with no `orders` key. -/
def lambda_handler (_eventIgnored : PyVal) (draw : Bool) : PyVal :=
  if draw then
    .dict [("results", .bool true),
           ("orders", .list
              [.dict [("status", .str "accepted"), ("power", .int 1)],
               .dict [("status", .str "rejected"), ("power", .int 2)]])]
  else
    .dict [("results", .bool false)]

end LambdaA

/-! A model of Python's `json.loads`, close enough to the stdlib for the
inputs these handlers see: values are `null`, booleans, numbers,
strings (with the standard escapes), arrays and objects; a number with
a fraction or exponent becomes a Python float, otherwise an int.  The
float carries its literal text, which equals `str(f)` for literals
already in shortest form (the only ones the claims evaluate).  Nesting
is bounded by a fuel that `json_loads` seeds with more than the input
length, so the bound is never the reason a parse fails. -/

/-- Drop leading JSON whitespace. -/
def skipWs (cs : List Char) : List Char :=
  cs.dropWhile (fun c => c = ' ' || c = '\t' || c = '\n' || c = '\r')

/-- Numeric value of one hex digit, by code point
(`0`-`9`, `a`-`f`, `A`-`F`). -/
def hexDigitVal (c : Char) : Option Nat :=
  let n := c.toNat
  if 48 ≤ n && n ≤ 57 then some (n - 48)
  else if 97 ≤ n && n ≤ 102 then some (n - 87)
  else if 65 ≤ n && n ≤ 70 then some (n - 55)
  else none

/-- Code point named by the four hex digits of a `\uXXXX` escape. -/
def hexQuad (a b c d : Char) : Option Nat :=
  match hexDigitVal a, hexDigitVal b, hexDigitVal c, hexDigitVal d with
  | some w, some x, some y, some z => some (4096 * w + 256 * x + 16 * y + z)
  | _, _, _, _ => none

/-- Decoded character of a one-letter escape, as a lookup table. -/
def escMap (e : Char) : Option Char :=
  [('"', '"'), ('\\', '\\'), ('/', '/'),
   ('b', Char.ofNat 8), ('f', Char.ofNat 12),
   ('n', '\n'), ('r', '\r'), ('t', '\t')].lookup e

/-- Rest of a JSON string after its opening quote, decoding escapes and
accumulating the characters in reverse. -/
def stringTail (acc : List Char) : List Char → Except String (String × List Char)
  | [] => .error "Unterminated string"
  | c :: rest =>
    if c = '"' then .ok (String.mk acc.reverse, rest)
    else if c = '\\' then
      match rest with
      | 'u' :: a :: b :: c2 :: d :: rest2 =>
        match hexQuad a b c2 d with
        | some n => stringTail (Char.ofNat n :: acc) rest2
        | none => .error "Invalid hex digits in string escape"
      | e :: rest2 =>
        match escMap e with
        | some ch => stringTail (ch :: acc) rest2
        | none => .error "Unrecognized escape"
      | [] => .error "Unterminated escape"
    else stringTail (c :: acc) rest

/-- Decimal value accumulated over a digit run. -/
def decValue : List Char → Nat → Nat
  | [], acc => acc
  | c :: rest, acc => decValue rest (10 * acc + (c.toNat - 48))

/-- Literal text of a number's mantissa: optional minus, whole digits,
optional fraction digits. -/
def mantissaText (neg : Bool) (whole : List Char) (frac : Option (List Char)) : String :=
  (if neg then "-" else "") ++ String.mk whole ++
    (match frac with
     | some fr => "." ++ String.mk fr
     | none => "")

/-- A number with no exponent: a Python float when it had a fraction,
an int otherwise. -/
def finishNumber (neg : Bool) (whole : List Char) (frac : Option (List Char))
    (cs : List Char) : Except String (PyVal × List Char) :=
  match frac with
  | some _ => .ok (.float (mantissaText neg whole frac), cs)
  | none =>
    let n : Int := Int.ofNat (decValue whole 0)
    .ok (.int (if neg then -n else n), cs)

/-- Optional exponent of a number; with one, the number is a Python
float carrying its literal text. -/
def expTail (neg : Bool) (whole : List Char) (frac : Option (List Char)) :
    List Char → Except String (PyVal × List Char)
  | e :: rest =>
    if e = 'e' || e = 'E' then
      let (sgn, rest1) : String × List Char :=
        match rest with
        | '+' :: r => ("+", r)
        | '-' :: r => ("-", r)
        | _ => ("", rest)
      let (eds, rest2) := rest1.span Char.isDigit
      if eds.isEmpty then .error "Expecting digits in exponent"
      else
        .ok (.float (mantissaText neg whole frac ++ "e" ++ sgn ++ String.mk eds),
             rest2)
    else finishNumber neg whole frac (e :: rest)
  | [] => finishNumber neg whole frac []

/-- A JSON number after its optional minus sign. -/
def numberFrom (neg : Bool) (cs : List Char) : Except String (PyVal × List Char) :=
  let (whole, afterWhole) := cs.span Char.isDigit
  if whole.isEmpty then .error "Expecting value"
  else
    match afterWhole with
    | '.' :: fr =>
      let (fracDigits, afterFrac) := fr.span Char.isDigit
      if fracDigits.isEmpty then .error "Expecting digit after decimal point"
      else expTail neg whole (some fracDigits) afterFrac
    | _ => expTail neg whole none afterWhole

mutual

/-- One JSON value, returning it and the unconsumed rest. -/
def parseValue : Nat → List Char → Except String (PyVal × List Char)
  | 0, _ => .error "Nesting limit exceeded"
  | fuel + 1, cs =>
    match skipWs cs with
    | [] => .error "Expecting value: line 1 column 1 (char 0)"
    | '{' :: rest =>
      match skipWs rest with
      | '}' :: r2 => .ok (.dict [], r2)
      | _ => parseMembers fuel rest []
    | '[' :: rest =>
      match skipWs rest with
      | ']' :: r2 => .ok (.list [], r2)
      | _ => parseElems fuel rest []
    | '"' :: rest =>
      match stringTail [] rest with
      | .error e => .error e
      | .ok (s, r) => .ok (.str s, r)
    | 't' :: 'r' :: 'u' :: 'e' :: rest => .ok (.bool true, rest)
    | 'f' :: 'a' :: 'l' :: 's' :: 'e' :: rest => .ok (.bool false, rest)
    | 'n' :: 'u' :: 'l' :: 'l' :: rest => .ok (.null, rest)
    | c :: rest =>
      if c = '-' then numberFrom true rest
      else if c.isDigit then numberFrom false (c :: rest)
      else .error "Expecting value"

/-- Members of a non-empty JSON object; a duplicate key keeps its first
position and takes the later value, as in a Python dict. -/
def parseMembers : Nat → List Char → List (String × PyVal) →
    Except String (PyVal × List Char)
  | 0, _, _ => .error "Nesting limit exceeded"
  | fuel + 1, cs, acc =>
    match skipWs cs with
    | '"' :: rest =>
      match stringTail [] rest with
      | .error e => .error e
      | .ok (k, r1) =>
        match skipWs r1 with
        | ':' :: r2 =>
          match parseValue fuel r2 with
          | .error e => .error e
          | .ok (v, r3) =>
            match skipWs r3 with
            | ',' :: r4 => parseMembers fuel r4 (setField acc k v)
            | '}' :: r4 => .ok (.dict (setField acc k v), r4)
            | _ => .error "Expecting delimiter"
        | _ => .error "Expecting colon delimiter"
    | _ => .error "Expecting property name enclosed in double quotes"

/-- Elements of a non-empty JSON array. -/
def parseElems : Nat → List Char → List PyVal →
    Except String (PyVal × List Char)
  | 0, _, _ => .error "Nesting limit exceeded"
  | fuel + 1, cs, acc =>
    match parseValue fuel cs with
    | .error e => .error e
    | .ok (v, r1) =>
      match skipWs r1 with
      | ',' :: r2 => parseElems fuel r2 (acc ++ [v])
      | ']' :: r2 => .ok (.list (acc ++ [v]), r2)
      | _ => .error "Expecting delimiter"

end

/-- `json.loads`: parse one value and require only whitespace after
it. -/
def json_loads (s : String) : Except String PyVal :=
  match parseValue (s.length + 1) s.toList with
  | .error e => .error e
  | .ok (v, rest) =>
    match skipWs rest with
    | [] => .ok v
    | _ => .error "Extra data"

/-! Model of `post_lambda/app.py` (the order ingestion API). -/

namespace PostLambda

/-- Python substring test `needle in hay` on strings. -/
def strContains (hay needle : String) : Bool :=
  (List.range (hay.length + 1)).any
    (fun i => needle.toList.isPrefixOf (hay.toList.drop i))

/-- Whether a Python list contains a given string under `==` (only
`str` elements can compare equal to a string). -/
def listHasStr : List PyVal → String → Bool
  | [], _ => false
  | .str t :: rest, key => t = key || listHasStr rest key
  | _ :: rest, key => listHasStr rest key

/-- Python `key in v` for a string `key`: key membership for a dict,
element equality for a list, substring test for a string; the other
kinds raise `TypeError`. -/
def pyContains (v : PyVal) (key : String) : Except String Bool :=
  match v with
  | .dict fs => .ok (lookupField fs key).isSome
  | .list xs => .ok (listHasStr xs key)
  | .str s => .ok (strContains s key)
  | _ => .error "TypeError: argument of type is not iterable"

/-- Outcome of the validation loop over the batch (lines 101-108): the
whole batch passes, or the first record failing `'record_id' in order`
stops the scan — with a 400 when the test is false and an exception
(mapped to a 500 by the catch-all) when the test itself raises. -/
inductive CheckResult where
  | pass
  | missing
  | typeError (msg : String)
deriving Repr, DecidableEq

/-- The `for order in orders` validation loop. -/
def checkRecordIds : List PyVal → CheckResult
  | [] => .pass
  | o :: rest =>
    match pyContains o "record_id" with
    | .error m => .typeError m
    | .ok true => checkRecordIds rest
    | .ok false => .missing

/-- `TTL: 24 hours in seconds` (line 20). -/
def TTL_SECONDS : Int := 24 * 60 * 60

/-- One item as built inside `save_to_db` (lines 39-46):
`{**record, 'ttl': now + TTL_SECONDS, 'created_at': now}` followed by
`convert_floats_to_decimal`.  A non-mapping record makes the `**`
splat raise `TypeError`.  `time.time()` is the single instant `now`:
the model's clock does not advance within one invocation. -/
def buildItem (record : PyVal) (now : Int) : Except String PyVal :=
  match record with
  | .dict fs =>
    .ok (convert_floats_to_decimal
          (.dict (setField (setField fs "ttl" (.int (now + TTL_SECONDS)))
                    "created_at" (.int now))))
  | _ => .error "TypeError: argument after ** must be a mapping"

/-- The item-building part of the `for record in records` loop inside
the batch writer: the first record whose construction raises stops the
loop with that exception. -/
def buildItems : List PyVal → Int → Except String (List PyVal)
  | [], _ => .ok []
  | r :: rest, now =>
    match buildItem r now with
    | .error m => .error m
    | .ok item =>
      match buildItems rest now with
      | .error m => .error m
      | .ok items => .ok (item :: items)

/-- `save_to_db` (lines 23-54): build every item and put it through the
batch writer; `batchPut` is the DynamoDB collaborator's outcome.  The
first component lists the items written on success; on any failure the
exception is logged and re-raised (`Except.error`), and the model
reports no completed writes (the batch writer's partial-flush behaviour
on failure is outside every claim). -/
def save_to_db (records : List PyVal) (now : Int)
    (batchPut : Except String Unit) : List PyVal × Except String Unit :=
  match buildItems records now with
  | .error m => ([], .error m)
  | .ok items =>
    match batchPut with
    | .ok _ => (items, .ok ())
    | .error m => ([], .error m)

/-- An HTTP-shaped response.  `contentType` is the single
`Content-Type` header; `body` is the document passed to `json.dumps`,
kept structural rather than serialized. -/
structure HttpResponse where
  isBase64Encoded : Bool
  statusCode : Nat
  contentType : String
  body : PyVal
deriving Repr

/-- A 400/500 response carrying `{'errorMessage': msg}`. -/
def errorResponse (code : Nat) (msg : String) : HttpResponse :=
  { isBase64Encoded := false
    statusCode := code
    contentType := "application/json"
    body := .dict [("errorMessage", .str msg)] }

/-- The 201 response for a saved batch of `n` orders. -/
def successResponse (n : Nat) : HttpResponse :=
  { isBase64Encoded := false
    statusCode := 201
    contentType := "application/json"
    body := .dict [("message",
                    .str ("Successfully saved " ++ toString n ++ " orders")),
                   ("count", .int (Int.ofNat n))] }

/-- The HTTP-shaped event: `httpMethod` and `path` keys (possibly
absent), and `body`, where `none` models both an absent `body` key and
an explicit `None` (indistinguishable under `event.get('body')`). -/
structure PostEvent where
  httpMethod : Option PyVal
  path : Option PyVal
  body : Option PyVal

/-- The `try` block of `lambda_handler` (lines 72-134): body presence,
JSON parse of a textual body, list check, `record_id` scan, then
`save_to_db`; `json.JSONDecodeError` maps to a 400 and every other
exception to a 500.  Returns the attempted writes and the response. -/
def handleRequest (bodyOpt : Option PyVal) (now : Int)
    (batchPut : Except String Unit) : List PyVal × HttpResponse :=
  match bodyOpt with
  | none => ([], errorResponse 400 "Request body is empty")
  | some bodyVal =>
    match (match bodyVal with
           | .str s => json_loads s
           | v => .ok v) with
    | .error e => ([], errorResponse 400 ("Invalid JSON: " ++ e))
    | .ok orders =>
      match orders with
      | .list records =>
        match checkRecordIds records with
        | .missing =>
          ([], errorResponse 400 "Each order must have a 'record_id' field")
        | .typeError m =>
          ([], errorResponse 500 ("Internal server error: " ++ m))
        | .pass =>
          match save_to_db records now batchPut with
          | (items, .ok _) => (items, successResponse records.length)
          | (_, .error m) =>
            ([], errorResponse 500 ("Internal server error: " ++ m))
      | _ => ([], errorResponse 400 "Request body must be a list of orders")

/-- The persisted shape of one accepted record: the record extended
with `ttl = now + TTL_SECONDS` and `created_at = now`, with every float
leaf converted to a decimal (the dict branch of `buildItem`; on the
save path every record is a dict). -/
def persistedItem (record : PyVal) (now : Int) : PyVal :=
  match record with
  | .dict fs =>
    convert_floats_to_decimal
      (.dict (setField (setField fs "ttl" (.int (now + TTL_SECONDS)))
                "created_at" (.int now)))
  | v => v

/-- `lambda_handler` (lines 68-134).  `event['httpMethod']` and
`event['path']` are read by the logging call before the `try` block, so
a missing key raises an uncaught `KeyError` and no HTTP-shaped response
is produced; otherwise every outcome of the `try` block is a
response. -/
def lambda_handler (event : PostEvent) (now : Int)
    (batchPut : Except String Unit) : List PyVal × Except String HttpResponse :=
  match event.httpMethod with
  | none => ([], .error "KeyError: 'httpMethod'")
  | some _ =>
    match event.path with
    | none => ([], .error "KeyError: 'path'")
    | some _ =>
      let r := handleRequest event.body now batchPut
      (r.1, .ok r.2)

end PostLambda

theorem convert_pass_null : convert_floats_to_decimal .null = .null := rfl

theorem convert_pass_bool (b : Bool) :
    convert_floats_to_decimal (.bool b) = .bool b := rfl

theorem convert_pass_int (n : Int) :
    convert_floats_to_decimal (.int n) = .int n := rfl

theorem convert_pass_decimal (r : String) :
    convert_floats_to_decimal (.decimal r) = .decimal r := rfl

theorem convert_pass_str (s : String) :
    convert_floats_to_decimal (.str s) = .str s := rfl

mutual

theorem convert_idem (v : PyVal) :
    convert_floats_to_decimal (convert_floats_to_decimal v) =
      convert_floats_to_decimal v := by
  cases v with
  | dict fs => simp only [convert_floats_to_decimal, convertFields_idem]
  | list xs => simp only [convert_floats_to_decimal, convertItems_idem]
  | float r => rfl
  | null => rfl
  | bool b => rfl
  | int n => rfl
  | decimal r => rfl
  | str s => rfl

theorem convertFields_idem (fs : List (String × PyVal)) :
    convertFields (convertFields fs) = convertFields fs := by
  cases fs with
  | nil => rfl
  | cons kv rest =>
    cases kv with
    | mk k v =>
      simp only [convertFields, convert_idem, convertFields_idem]

theorem convertItems_idem (xs : List PyVal) :
    convertItems (convertItems xs) = convertItems xs := by
  cases xs with
  | nil => rfl
  | cons v rest =>
    simp only [convertItems, convert_idem, convertItems_idem]

end

/-- C7: the float-to-decimal conversion is idempotent, and values that
are already decimals, integers, or strings pass through unchanged. -/
theorem c7_convert_floats_to_decimal_idempotent :
    (∀ v : PyVal,
        convert_floats_to_decimal (convert_floats_to_decimal v) =
          convert_floats_to_decimal v) ∧
    (∀ r : String, convert_floats_to_decimal (.decimal r) = .decimal r) ∧
    (∀ n : Int, convert_floats_to_decimal (.int n) = .int n) ∧
    (∀ s : String, convert_floats_to_decimal (.str s) = .str s) :=
  ⟨convert_idem, convert_pass_decimal, convert_pass_int, convert_pass_str⟩

/-- C1: on every invocation in which token verification does not produce
a policy, the authorizer handler's outcome is exactly the opaque
`Unauthorized` exception: the result is either a success or the error
`"Unauthorized"`, with no other failure value observable. -/
theorem c1_authorizer_uniform_unauthorized_failure
    (event : Authorizer.AuthEvent) (jwtSecretName : Option String)
    (fetchSecret : Except String String)
    (decode : String → String → Authorizer.DecodeResult) :
    Authorizer.lambda_handler event jwtSecretName fetchSecret decode =
        .error "Unauthorized" ∨
      ∃ p, Authorizer.lambda_handler event jwtSecretName fetchSecret decode =
        .ok p := by
  unfold Authorizer.lambda_handler
  dsimp only
  split
  · exact Or.inl rfl
  · split
    · exact Or.inr ⟨_, rfl⟩
    · exact Or.inl rfl

/-- C5: whenever the token verifies successfully, the handler returns an
Allow policy on the given method ARN whose principal is the claims'
`sub` if present, else `email` if present, else `"user"`, with context
`{userId: principal, email: claims.email or ""}`. -/
theorem c5_authorizer_success_policy
    (event : Authorizer.AuthEvent) (jwtSecretName : Option String)
    (fetchSecret : Except String String)
    (decode : String → String → Authorizer.DecodeResult)
    (tok arn : String) (claims : Authorizer.Claims)
    (htok : event.authorizationToken = some tok) (hne : tok ≠ "")
    (harn : event.methodArn = some arn)
    (hval : Authorizer.validate_token (Authorizer.stripBearer tok)
        jwtSecretName fetchSecret decode = .ok claims) :
    Authorizer.lambda_handler event jwtSecretName fetchSecret decode =
      .ok { principalId := claims.sub.getD (claims.email.getD "user")
            version := "2012-10-17"
            action := "execute-api:Invoke"
            effect := "Allow"
            resource := arn
            context := some { userId := claims.sub.getD (claims.email.getD "user")
                              email := claims.email.getD "" } } := by
  unfold Authorizer.lambda_handler
  rw [htok, harn]
  simp only [Option.getD_some, if_neg hne, hval]
  rfl

/-- Witness for C5 at a concrete event, secret configuration and decode
oracle. -/
theorem c5_authorizer_success_policy_witness :
    Authorizer.lambda_handler
        ⟨some "Bearer tok123", some "arn:aws:execute-api:eu-west-1:123:api"⟩
        (some "jwt-secret") (.ok "sekret")
        (fun _ _ => .ok ⟨some "user123", some "u@example.com"⟩) =
      .ok { principalId := "user123"
            version := "2012-10-17"
            action := "execute-api:Invoke"
            effect := "Allow"
            resource := "arn:aws:execute-api:eu-west-1:123:api"
            context := some { userId := "user123", email := "u@example.com" } } :=
  c5_authorizer_success_policy
    ⟨some "Bearer tok123", some "arn:aws:execute-api:eu-west-1:123:api"⟩
    (some "jwt-secret") (.ok "sekret")
    (fun _ _ => .ok ⟨some "user123", some "u@example.com"⟩)
    "Bearer tok123" "arn:aws:execute-api:eu-west-1:123:api"
    ⟨some "user123", some "u@example.com"⟩
    rfl (by decide) rfl rfl

/-- C6 counterexample: with `JWT_SECRET_NAME` unset (missing
configuration) and a non-empty token, the handler's outcome is the very
opaque `Unauthorized` failure — not a distinct configuration error —
because the catch-all `except Exception` swallows the `ValueError`. -/
theorem c6_counterexample_missing_config_yields_unauthorized :
    Authorizer.lambda_handler
        ⟨some "Bearer sometoken", some "arn:aws:execute-api:eu-west-1:123:api"⟩
        none (.ok "sekret") (fun _ _ => .invalidToken "unreached") =
      .error "Unauthorized" := rfl

/-- C6 amended: when the shared secret name is missing (unset or empty
`JWT_SECRET_NAME`), the resulting `ValueError` is caught by the
handler's catch-all and the invocation fails with the same opaque
`Unauthorized` outcome as token errors, for every event and decode
behaviour. -/
theorem c6_amended_missing_config_collapses_to_unauthorized
    (event : Authorizer.AuthEvent) (fetchSecret : Except String String)
    (decode : String → String → Authorizer.DecodeResult) :
    Authorizer.lambda_handler event none fetchSecret decode =
        .error "Unauthorized" ∧
      Authorizer.lambda_handler event (some "") fetchSecret decode =
        .error "Unauthorized" := by
  constructor <;>
  · unfold Authorizer.lambda_handler
    dsimp only
    split
    · rfl
    · simp [Authorizer.validate_token, Authorizer.get_secret_key]

/-- C2: an order-result document whose `status` equals `"rejected"`
makes the archiver raise the domain error before any object-storage
write: the put-call list is empty and the outcome is the
`ValueError('Order status is rejected!')`, never a success document. -/
theorem c2_rejected_order_never_written
    (event : PyVal) (fs : List (String × PyVal))
    (logBucket nowIso : String) (s3Put : Except String Unit)
    (hev : event = .dict fs)
    (hst : lookupField fs "status" = some (.str "rejected")) :
    LambdaB.lambda_handler event logBucket nowIso s3Put =
      ([], .error "Order status is rejected!") := by
  subst hev
  unfold LambdaB.lambda_handler
  dsimp only
  rw [hst]
  rfl

/-- Witness for C2 at a concrete rejected order. -/
theorem c2_rejected_order_never_written_witness :
    LambdaB.lambda_handler
        (.dict [("status", .str "rejected"), ("power", .int 2)])
        "wattsup-logs" "2024-01-01T00:00:00+00:00" (.ok ()) =
      ([], .error "Order status is rejected!") :=
  c2_rejected_order_never_written
    (.dict [("status", .str "rejected"), ("power", .int 2)])
    [("status", .str "rejected"), ("power", .int 2)]
    "wattsup-logs" "2024-01-01T00:00:00+00:00" (.ok ()) rfl rfl

/-- C8: the generator's output depends only on the boolean draw — for
any two events the outputs agree; a true draw yields exactly the fixed
two-order document and a false draw yields exactly `{results: false}`
with no `orders` key. -/
theorem c8_generator_fixed_outputs (e e2 : PyVal) (draw : Bool) :
    LambdaA.lambda_handler e draw = LambdaA.lambda_handler e2 draw ∧
    LambdaA.lambda_handler e true =
      .dict [("results", .bool true),
             ("orders", .list
                [.dict [("status", .str "accepted"), ("power", .int 1)],
                 .dict [("status", .str "rejected"), ("power", .int 2)]])] ∧
    LambdaA.lambda_handler e false = .dict [("results", .bool false)] ∧
    pyHasKey (LambdaA.lambda_handler e false) "orders" = false ∧
    pyHasKey (LambdaA.lambda_handler e true) "orders" = true := by
  refine ⟨?_, rfl, rfl, rfl, rfl⟩
  cases draw <;> rfl

theorem checkRecordIds_pass_of_all_keyed (records : List PyVal)
    (h : ∀ o ∈ records, PostLambda.pyContains o "record_id" = .ok true) :
    PostLambda.checkRecordIds records = .pass := by
  induction records with
  | nil => rfl
  | cons o rest ih =>
    have ho := h o (List.mem_cons_self o rest)
    simp only [PostLambda.checkRecordIds, ho]
    exact ih (fun x hx => h x (List.mem_cons_of_mem o hx))

theorem checkRecordIds_missing_of_unkeyed (records : List PyVal)
    (hall : ∀ o ∈ records, ∃ fs, o = PyVal.dict fs)
    (hmiss : ∃ o ∈ records, PostLambda.pyContains o "record_id" = .ok false) :
    PostLambda.checkRecordIds records = .missing := by
  induction records with
  | nil => simp at hmiss
  | cons o rest ih =>
    obtain ⟨fs, hfs⟩ := hall o (List.mem_cons_self o rest)
    by_cases hsome : lookupField fs "record_id" = none
    · have ho : PostLambda.pyContains o "record_id" = .ok false := by
        rw [hfs]
        simp [PostLambda.pyContains, hsome]
      simp only [PostLambda.checkRecordIds, ho]
    · have ho : PostLambda.pyContains o "record_id" = .ok true := by
        rw [hfs]
        simp [PostLambda.pyContains, Option.isSome_iff_ne_none, hsome]
      simp only [PostLambda.checkRecordIds, ho]
      apply ih
      · exact fun x hx => hall x (List.mem_cons_of_mem o hx)
      · rcases hmiss with ⟨x, hx, hxf⟩
        rcases List.mem_cons.mp hx with rfl | hx'
        · rw [ho] at hxf
          simp at hxf
        · exact ⟨x, hx', hxf⟩

theorem buildItems_ok_of_dicts (records : List PyVal) (now : Int)
    (hall : ∀ o ∈ records, ∃ fs, o = PyVal.dict fs) :
    PostLambda.buildItems records now =
      .ok (records.map (fun o => PostLambda.persistedItem o now)) := by
  induction records with
  | nil => rfl
  | cons o rest ih =>
    obtain ⟨fs, hfs⟩ := hall o (List.mem_cons_self o rest)
    have hb : PostLambda.buildItem o now = .ok (PostLambda.persistedItem o now) := by
      rw [hfs]; rfl
    simp only [PostLambda.buildItems, hb,
      ih (fun x hx => hall x (List.mem_cons_of_mem o hx)), List.map_cons]

theorem save_to_db_ok_of_dicts (records : List PyVal) (now : Int)
    (hall : ∀ o ∈ records, ∃ fs, o = PyVal.dict fs) :
    PostLambda.save_to_db records now (.ok ()) =
      (records.map (fun o => PostLambda.persistedItem o now), .ok ()) := by
  unfold PostLambda.save_to_db
  rw [buildItems_ok_of_dicts records now hall]

/-- C3 counterexample: a batch whose only record carries an EMPTY
`record_id` (so it "does not carry a non-empty `record_id`") is not
rejected with a 400 — the handler accepts it, writes it to the store
and returns 201, because the code only tests key presence
(`'record_id' not in order`), never non-emptiness. -/
theorem c3_counterexample_empty_record_id_accepted :
    PostLambda.lambda_handler
        ⟨some (.str "POST"), some (.str "/orders"),
         some (.list [.dict [("record_id", .str "")]])⟩ 0 (.ok ()) =
      ([.dict [("record_id", .str ""), ("ttl", .int 86400),
               ("created_at", .int 0)]],
       .ok (PostLambda.successResponse 1)) := rfl

/-- C3 amended: for every parsed batch that is a list of dict records
at least one of which lacks the `record_id` KEY (presence is all the
code checks — an empty-string `record_id` passes), the handler returns
the 400 response `Each order must have a 'record_id' field` and no
write to the store is attempted for any record of the batch. -/
theorem c3_amended_missing_record_id_key_rejected
    (m p : PyVal) (records : List PyVal) (now : Int)
    (batchPut : Except String Unit)
    (hall : ∀ o ∈ records, ∃ fs, o = PyVal.dict fs)
    (hmiss : ∃ o ∈ records, ∃ fs, o = PyVal.dict fs ∧
        lookupField fs "record_id" = none) :
    PostLambda.lambda_handler ⟨some m, some p, some (.list records)⟩ now batchPut =
      ([], .ok (PostLambda.errorResponse 400
                  "Each order must have a 'record_id' field")) := by
  have hm : PostLambda.checkRecordIds records = .missing := by
    apply checkRecordIds_missing_of_unkeyed records hall
    obtain ⟨o, ho, fs, hfs, hnone⟩ := hmiss
    refine ⟨o, ho, ?_⟩
    rw [hfs]
    simp [PostLambda.pyContains, hnone]
  unfold PostLambda.lambda_handler PostLambda.handleRequest
  dsimp only
  rw [hm]

/-- Witness for the amended C3 at a concrete one-record batch lacking
the key. -/
theorem c3_amended_missing_record_id_key_rejected_witness :
    PostLambda.lambda_handler
        ⟨some (.str "POST"), some (.str "/orders"),
         some (.list [.dict [("power", .int 1)]])⟩ 7 (.ok ()) =
      ([], .ok (PostLambda.errorResponse 400
                  "Each order must have a 'record_id' field")) :=
  c3_amended_missing_record_id_key_rejected (.str "POST") (.str "/orders")
    [.dict [("power", .int 1)]] 7 (.ok ())
    (by
      intro o ho
      rw [List.mem_singleton.mp ho]
      exact ⟨[("power", .int 1)], rfl⟩)
    ⟨.dict [("power", .int 1)], List.mem_singleton.mpr rfl,
     [("power", .int 1)], rfl, rfl⟩

/-- C4: every batch the ingestion handler accepts is written item by
item as the submitted record extended with `ttl = now + 86400` and
`created_at = now`, with every float leaf (however deeply nested)
replaced by its exact decimal representation and all other values
unchanged (`persistedItem`), and the handler returns the 201 success
response counting the records. -/
theorem c4_accepted_batch_written_with_ttl_created_at
    (m p : PyVal) (records : List PyVal) (now : Int)
    (h : ∀ o ∈ records, ∃ fs, o = PyVal.dict fs ∧
        lookupField fs "record_id" ≠ none) :
    PostLambda.lambda_handler ⟨some m, some p, some (.list records)⟩ now (.ok ()) =
      (records.map (fun o => PostLambda.persistedItem o now),
       .ok (PostLambda.successResponse records.length)) := by
  have hall : ∀ o ∈ records, ∃ fs, o = PyVal.dict fs :=
    fun o ho => (h o ho).imp (fun _ hp => hp.1)
  have hpass : PostLambda.checkRecordIds records = .pass := by
    apply checkRecordIds_pass_of_all_keyed
    intro o ho
    obtain ⟨fs, rfl, hne⟩ := h o ho
    simp [PostLambda.pyContains, Option.isSome_iff_ne_none, hne]
  unfold PostLambda.lambda_handler PostLambda.handleRequest
  dsimp only
  rw [hpass, save_to_db_ok_of_dicts records now hall]

/-- Witness for C4: a record containing a top-level float, a nested
float, an integer and a string, persisted at time 100. -/
theorem c4_accepted_batch_written_with_ttl_created_at_witness :
    PostLambda.lambda_handler
        ⟨some (.str "POST"), some (.str "/orders"),
         some (.list [.dict [("record_id", .str "r1"),
                             ("price", .float "50.25"),
                             ("nested", .dict [("v", .float "1.5")]),
                             ("n", .int 10), ("s", .str "x")]])⟩
        100 (.ok ()) =
      ([.dict [("record_id", .str "r1"),
               ("price", .decimal "50.25"),
               ("nested", .dict [("v", .decimal "1.5")]),
               ("n", .int 10), ("s", .str "x"),
               ("ttl", .int 86500), ("created_at", .int 100)]],
       .ok (PostLambda.successResponse 1)) :=
  Eq.trans
    (c4_accepted_batch_written_with_ttl_created_at (.str "POST") (.str "/orders")
      [.dict [("record_id", .str "r1"), ("price", .float "50.25"),
              ("nested", .dict [("v", .float "1.5")]),
              ("n", .int 10), ("s", .str "x")]] 100
      (by
        intro o ho
        rw [List.mem_singleton.mp ho]
        exact ⟨[("record_id", .str "r1"), ("price", .float "50.25"),
                ("nested", .dict [("v", .float "1.5")]),
                ("n", .int 10), ("s", .str "x")], rfl,
               Option.some_ne_none _⟩))
    rfl

/-- C9: an event lacking `httpMethod` or `path` makes the ingestion
handler raise an uncaught `KeyError` before any validation: nothing is
written and the outcome is an exception, not an HTTP-shaped response
(neither 400 nor 500). -/
theorem c9_missing_method_or_path_uncaught
    (event : PostLambda.PostEvent) (now : Int) (batchPut : Except String Unit)
    (h : event.httpMethod = none ∨ event.path = none) :
    ∃ msg, PostLambda.lambda_handler event now batchPut = ([], .error msg) := by
  cases event with
  | mk m p b =>
    rcases h with h | h
    · have hm : m = none := h
      subst hm
      exact ⟨"KeyError: 'httpMethod'", rfl⟩
    · have hp : p = none := h
      subst hp
      cases m with
      | none => exact ⟨"KeyError: 'httpMethod'", rfl⟩
      | some mv => exact ⟨"KeyError: 'path'", rfl⟩

/-- Witness for C9 at an event with no `httpMethod` key. -/
theorem c9_missing_method_or_path_uncaught_witness :
    ∃ msg, PostLambda.lambda_handler
        ⟨none, some (.str "/orders"), some (.str "[]")⟩ 0 (.ok ()) =
      ([], .error msg) :=
  c9_missing_method_or_path_uncaught
    ⟨none, some (.str "/orders"), some (.str "[]")⟩ 0 (.ok ()) (Or.inl rfl)

/-- C10: an event whose body is the empty string does NOT get the
`Request body is empty` 400 (only an absent/None body does); the empty
string reaches `json.loads`, whose failure yields a 400 whose message
starts with `Invalid JSON:`. -/
theorem c10_empty_string_body_is_invalid_json
    (m p : PyVal) (now : Int) (batchPut : Except String Unit) :
    ∃ detail,
      PostLambda.lambda_handler ⟨some m, some p, some (.str "")⟩ now batchPut =
          ([], .ok (PostLambda.errorResponse 400 ("Invalid JSON: " ++ detail))) ∧
        "Invalid JSON: " ++ detail ≠ "Request body is empty" :=
  ⟨"Expecting value: line 1 column 1 (char 0)", rfl, by decide⟩
